import Mathlib

/-!
Shallow embedding of the DPM86XX power-supply driver (`dpm86xx/dpm86xx.py`).

Modelling conventions:
* Python `bytes` values are modelled as `List Char`; every byte that occurs in
  the protocol is 7-bit ASCII.
* Python `int` is modelled as `Int`; Python `float` is modelled as an exact
  rational (`ℚ`).  At each concrete value appearing in the claims the IEEE-754
  double computation and the exact rational computation agree (for instance
  `int(12.34 * 100) = 1234` in double precision and `⌊12.34 * 100⌋ = 1234`
  exactly).
* Fallible code returns `Except DPMError α`.  The constructors correspond to
  the Python exceptions actually raised: `validation` to `ValueError` from a
  parameter check, `notConnected` to the failure of the `assert self._port is
  not None` precondition (an unbound channel), `frameTooShort` to the
  `IOError` for responses below the minimum frame length, and
  `malformedNumber` to the `ValueError` from `int()` on a non-numeric payload.
* A device session method performs exactly one `write` and one
  `read_until(b'\r\n')`.  The channel is modelled by passing the bytes the
  read would return (`response`); a method returns the list of frames it
  wrote together with its outcome, so "fails before writing anything" is the
  statement that the written-frame list is empty.
-/

/-- Error taxonomy of the driver (see module docstring for the mapping to the
Python exceptions raised by the source). -/
inductive DPMError where
  | validation (msg : String)
  | notConnected
  | frameTooShort (response : List Char)
  | malformedNumber
  deriving DecidableEq

/-- The character for a single decimal digit `n < 10`, as produced by Python
string formatting. -/
def natDigitChar (n : Nat) : Char :=
  Char.ofNat (48 + n)

/-- Decimal digit characters of `n`, most significant first, with explicit
fuel (structural recursion); `fuel` must exceed the number of digits. -/
def natDigitsAux : Nat → Nat → List Char
  | 0, _ => []
  | fuel + 1, n =>
    if n < 10 then [natDigitChar n]
    else natDigitsAux fuel (n / 10) ++ [natDigitChar (n % 10)]

/-- Decimal digit characters of a natural number, as produced by Python
`str(n)` for `n ≥ 0`. -/
def natDigits (n : Nat) : List Char :=
  natDigitsAux (n + 1) n

/-- Python `str(i)` for an `int`: optional minus sign followed by the decimal
digits of the absolute value. -/
def intStr (i : Int) : List Char :=
  if i < 0 then '-' :: natDigits i.natAbs else natDigits i.toNat

/-- Python `f'{i:02d}'`: zero-pad the decimal representation to width 2. -/
def pad2 (i : Int) : List Char :=
  let s := intStr i
  if s.length < 2 then '0' :: s else s

/-- The serialized request line
`f':{address:02d}{function}{function_member:02d}={operand},\r\n'` where
`operandStr` is the already-formatted operand field. -/
def buildFrame (address : Int) (function : Char) (function_member : Int)
    (operandStr : List Char) : List Char :=
  ':' :: (pad2 address ++ function :: (pad2 function_member ++
    '=' :: (operandStr ++ [',', '\r', '\n'])))

def vErrAddress : String := "Address must be in the range of 1 - 99."
def vErrFunctionMember : String := "Function member must be in the range of 0 - 99."
def vErrOperand : String := "Operand must be in the range of 0 - 65536."
def vErrOperand2 : String := "2nd operand must be in the range of 0 - 65536."
def vErrFunction : String := "Function must be either 'r' or 'w'."

/-- `DPM86XX.make_command` (dpm86xx.py lines 12-48): validates address,
function member, operand, optional second operand (building the combined
operand field), then the direction character, and serializes the frame. -/
def make_command (address : Int) (function : Char) (function_member : Int)
    (operand : Int) (operand2 : Option Int := none) : Except DPMError (List Char) :=
  if ¬(1 ≤ address ∧ address ≤ 99) then
    .error (.validation vErrAddress)
  else if ¬(0 ≤ function_member ∧ function_member ≤ 99) then
    .error (.validation vErrFunctionMember)
  else if ¬(0 ≤ operand ∧ operand ≤ 65536) then
    .error (.validation vErrOperand)
  else
    let operandStr? : Except DPMError (List Char) :=
      match operand2 with
      | none => .ok (intStr operand)
      | some op2 =>
        if ¬(0 ≤ op2 ∧ op2 ≤ 65536) then .error (.validation vErrOperand2)
        else .ok (intStr operand ++ ',' :: intStr op2)
    match operandStr? with
    | .error e => .error e
    | .ok operandStr =>
      if ¬(function = 'r' ∨ function = 'w') then
        .error (.validation vErrFunction)
      else
        .ok (buildFrame address function function_member operandStr)

/-- A Python numeric argument of static type `Union[float, int]`: the source
distinguishes the cases with `type(x) is float` / `type(x) is int`.  Floats
are modelled as exact rationals (see module docstring). -/
inductive PyNumber where
  | pyInt (n : Int)
  | pyFloat (q : ℚ)
  deriving DecidableEq

/-- The rational value of a `PyNumber`; Python `float(x)` is exact on the
integers appearing in this development. -/
def PyNumber.toRat : PyNumber → ℚ
  | .pyInt n => (n : ℚ)
  | .pyFloat q => q

/-- Python `int(q)` on a float: truncation toward zero.  With `q = num/den`,
`den > 0`, this is T-division of the numerator by the denominator. -/
def pyTrunc (q : ℚ) : Int :=
  Int.tdiv q.num (q.den : Int)

/-- The `voltage` conversion duplicated at dpm86xx.py lines 70-71 and
146-147: `if type(voltage) is float: voltage = int(voltage * 100)` — a float
is converted to centivolts, an int passes through unconverted. -/
def toCentivolts : PyNumber → Int
  | .pyInt n => n
  | .pyFloat q => pyTrunc (q * 100)

/-- The `current` conversion duplicated at dpm86xx.py lines 96-97 and
150-151: `if type(current) is float: current = int(current * 1000)`. -/
def toMilliamperes : PyNumber → Int
  | .pyInt n => n
  | .pyFloat q => pyTrunc (q * 1000)

def vErrVoltage : String := "Voltage must be in the range of 0.00 to 60.00 V"
def vErrCurrent : String := "Current must be in the range of 0.000 to 24.000 A"

/-- `DPM86XX.make_write_voltage_command` (lines 50-74). -/
def make_write_voltage_command (address : Int) (voltage : PyNumber) :
    Except DPMError (List Char) :=
  let voltage := toCentivolts voltage
  if ¬(0 ≤ voltage ∧ voltage ≤ 6000) then .error (.validation vErrVoltage)
  else make_command address 'w' 10 voltage

/-- `DPM86XX.make_write_current_command` (lines 76-100). -/
def make_write_current_command (address : Int) (current : PyNumber) :
    Except DPMError (List Char) :=
  let current := toMilliamperes current
  if ¬(0 ≤ current ∧ current ≤ 24000) then .error (.validation vErrCurrent)
  else make_command address 'w' 11 current

/-- A Python argument of static type `Union[bool, int]`. -/
inductive PyStatus where
  | pyBool (b : Bool)
  | pyInt (n : Int)
  deriving DecidableEq

/-- `DPM86XX.make_write_output_status_command` (lines 102-123):
`if type(status) is int: status = not status == 0` then
`status = 1 if status else 0`. -/
def make_write_output_status_command (address : Int) (status : PyStatus) :
    Except DPMError (List Char) :=
  let status : Bool :=
    match status with
    | .pyInt n => !(n == 0)
    | .pyBool b => b
  let status : Int := if status then 1 else 0
  make_command address 'w' 12 status

/-- `DPM86XX.make_write_voltage_and_current_command` (lines 125-154). -/
def make_write_voltage_and_current_command (address : Int)
    (voltage current : PyNumber) : Except DPMError (List Char) :=
  let voltage := toCentivolts voltage
  if ¬(0 ≤ voltage ∧ voltage ≤ 6000) then .error (.validation vErrVoltage)
  else
    let current := toMilliamperes current
    if ¬(0 ≤ current ∧ current ≤ 24000) then .error (.validation vErrCurrent)
    else make_command address 'w' 20 voltage (some current)

/-- `DPM86XX.make_read_maximum_output_voltage_command` (lines 156-166). -/
def make_read_maximum_output_voltage_command (address : Int) :=
  make_command address 'r' 0 0

/-- `DPM86XX.make_read_maximum_output_current_command` (lines 168-178). -/
def make_read_maximum_output_current_command (address : Int) :=
  make_command address 'r' 1 0

/-- `DPM86XX.make_read_voltage_setting_command` (lines 180-190). -/
def make_read_voltage_setting_command (address : Int) :=
  make_command address 'r' 10 0

/-- `DPM86XX.make_read_current_setting_command` (lines 192-202). -/
def make_read_current_setting_command (address : Int) :=
  make_command address 'r' 11 0

/-- `DPM86XX.make_read_output_status_command` (lines 204-214). -/
def make_read_output_status_command (address : Int) :=
  make_command address 'r' 12 0

/-- `DPM86XX.make_read_actual_voltage_command` (lines 216-226). -/
def make_read_actual_voltage_command (address : Int) :=
  make_command address 'r' 30 0

/-- `DPM86XX.make_read_actual_current_command` (lines 228-238). -/
def make_read_actual_current_command (address : Int) :=
  make_command address 'r' 31 0

/-- `DPM86XX.make_read_cc_cv_status_command` (lines 240-250). -/
def make_read_cc_cv_status_command (address : Int) :=
  make_command address 'r' 32 0

/-- `DPM86XX.make_read_temperature_command` (lines 252-262). -/
def make_read_temperature_command (address : Int) :=
  make_command address 'r' 33 0

/-- ASCII whitespace stripped by Python `int()` on a bytes argument. -/
def isPySpace (c : Char) : Bool :=
  c == ' ' || c == '\t' || c == '\n' || c == '\r' || c == '\x0b' || c == '\x0c'

/-- Strip ASCII whitespace from both ends, as Python `int()` does before
parsing a bytes argument. -/
def pyStrip (s : List Char) : List Char :=
  (((s.dropWhile isPySpace).reverse.dropWhile isPySpace).reverse)

/-- The digit run accepted by Python `int()` after sign handling:
`digit ('_'? digit)*` — ASCII decimal digits with PEP 515 grouping, i.e.
single underscores allowed only between two digits (never leading,
trailing, or doubled). -/
def pyDigitRun : List Char → Bool
  | [] => false
  | c :: rest =>
    c.isDigit &&
      match rest with
      | [] => true
      | r :: rest2 => if r = '_' then pyDigitRun rest2 else pyDigitRun (r :: rest2)

/-- Numeric value of a digit run (underscores are ignored for the value,
as in Python), `none` when the characters are not a valid digit run. -/
def parseDigits (ds : List Char) : Option Nat :=
  if pyDigitRun ds then
    some ((ds.filter (fun c => c != '_')).foldl (fun a c => a * 10 + (c.toNat - 48)) 0)
  else none

/-- The Python builtin `int()` applied to a bytes value, as used at
`int(response[7:-3])`: accepts surrounding ASCII whitespace, an optional
leading sign, and a nonempty run of ASCII decimal digits with single
PEP 515 underscores between digits (`int(b'4_5') == 45`); anything else
raises `ValueError` (modelled as `none`). -/
def pyIntParse (s : List Char) : Option Int :=
  match pyStrip s with
  | [] => none
  | c :: rest =>
    if c = '+' then (parseDigits rest).map Int.ofNat
    else if c = '-' then (parseDigits rest).map (fun n => -(n : Int))
    else (parseDigits (c :: rest)).map Int.ofNat

/-- Python slicing `response[7:-3]`: the elements with index `i`,
`7 ≤ i < length - 3` (empty when `length ≤ 10`). -/
def pySlice7toM3 (l : List Char) : List Char :=
  (l.drop 7).take (l.length - 10)

/-- The fixed acknowledgment literal `b':01ok\r\n'` the device answers to any
well-formed write command (echoing address `01` regardless of target). -/
def ackFrame : List Char :=
  [':', '0', '1', 'o', 'k', '\r', '\n']

/-- The device-session state of class `DPM86XX` (lines 6-10): the `_address`
attribute and the optional `_port` channel binding.  `port = none` models a
session constructed without a COM port and not yet bound via `set_port`
(in Python the `_port` attribute is then missing and every access to it
fails, modelled as the `notConnected` error). -/
structure DPM86XX where
  port : Option Unit
  address : Int
  deriving DecidableEq

/-- `DPM86XX.__init__` (lines 7-10) with its default `address=1`. -/
def DPM86XX.init (com_port : Option Unit) (address : Int := 1) : DPM86XX :=
  { port := com_port, address := address }

/-- `DPM86XX.set_port` (lines 264-283): binds a channel to the session. -/
def DPM86XX.set_port (self : DPM86XX) : DPM86XX :=
  { self with port := some () }

/-- Outcome of a session method: the frames written to the channel, in
order, together with the returned value or the exception raised. -/
abbrev SessionResult (α : Type) := List (List Char) × Except DPMError α

/-- The response-interpreting tail shared by the read methods (e.g. lines
304-308): `if len(response) < 11: raise IOError(...)` then
`int(response[7:-3])`. -/
def readTail (response : List Char) : Except DPMError Int :=
  if response.length < 11 then .error (.frameTooShort response)
  else
    match pyIntParse (pySlice7toM3 response) with
    | none => .error .malformedNumber
    | some v => .ok v

/-- `DPM86XX.get_temperature` (lines 285-308). -/
def DPM86XX.get_temperature (self : DPM86XX) (response : List Char) :
    SessionResult Int :=
  match self.port with
  | none => ([], .error .notConnected)
  | some _ =>
    match make_read_temperature_command self.address with
    | .error e => ([], .error e)
    | .ok command => ([command], readTail response)

/-- `DPM86XX.set_voltage_in_centivolts` (lines 310-332). -/
def DPM86XX.set_voltage_in_centivolts (self : DPM86XX) (response : List Char)
    (voltage_in_centivolts : Int) : SessionResult Bool :=
  match self.port with
  | none => ([], .error .notConnected)
  | some _ =>
    match make_write_voltage_command self.address (.pyInt voltage_in_centivolts) with
    | .error e => ([], .error e)
    | .ok command => ([command], .ok (response == ackFrame))

/-- `DPM86XX.set_voltage` (lines 334-362): coerces its argument to float
(`if type(voltage) is not float: voltage = float(voltage)`) before
delegating to the voltage command builder. -/
def DPM86XX.set_voltage (self : DPM86XX) (response : List Char)
    (voltage : PyNumber) : SessionResult Bool :=
  match self.port with
  | none => ([], .error .notConnected)
  | some _ =>
    let voltage : PyNumber := .pyFloat voltage.toRat
    match make_write_voltage_command self.address voltage with
    | .error e => ([], .error e)
    | .ok command => ([command], .ok (response == ackFrame))

/-- `DPM86XX.get_actual_voltage_in_centivolts` (lines 364-386). -/
def DPM86XX.get_actual_voltage_in_centivolts (self : DPM86XX)
    (response : List Char) : SessionResult Int :=
  match self.port with
  | none => ([], .error .notConnected)
  | some _ =>
    match make_read_actual_voltage_command self.address with
    | .error e => ([], .error e)
    | .ok command => ([command], readTail response)

/-- `DPM86XX.get_actual_voltage` (lines 388-402): centivolts divided by
`100.0`. -/
def DPM86XX.get_actual_voltage (self : DPM86XX) (response : List Char) :
    SessionResult ℚ :=
  let r := self.get_actual_voltage_in_centivolts response
  (r.1, r.2.map (fun v => (v : ℚ) / 100))

/-- `DPM86XX.set_output_status` (lines 404-424). -/
def DPM86XX.set_output_status (self : DPM86XX) (response : List Char)
    (status : PyStatus) : SessionResult Bool :=
  match self.port with
  | none => ([], .error .notConnected)
  | some _ =>
    match make_write_output_status_command self.address status with
    | .error e => ([], .error e)
    | .ok command => ([command], .ok (response == ackFrame))

/-- `DPM86XX.get_output_status` (lines 426-449): parsed value compared
against 1. -/
def DPM86XX.get_output_status (self : DPM86XX) (response : List Char) :
    SessionResult Bool :=
  match self.port with
  | none => ([], .error .notConnected)
  | some _ =>
    match make_read_output_status_command self.address with
    | .error e => ([], .error e)
    | .ok command => ([command], (readTail response).map (fun v => v == 1))

/-- `DPM86XX.set_current_in_milliampere` (lines 451-473). -/
def DPM86XX.set_current_in_milliampere (self : DPM86XX) (response : List Char)
    (current_in_milliampere : Int) : SessionResult Bool :=
  match self.port with
  | none => ([], .error .notConnected)
  | some _ =>
    match make_write_current_command self.address (.pyInt current_in_milliampere) with
    | .error e => ([], .error e)
    | .ok command => ([command], .ok (response == ackFrame))

/-- `DPM86XX.set_current` (lines 475-493): computes
`int(current * 1000)` (before any port check) and delegates to
`set_current_in_milliampere`. -/
def DPM86XX.set_current (self : DPM86XX) (response : List Char)
    (current : PyNumber) : SessionResult Bool :=
  let current_in_milliampere := pyTrunc (current.toRat * 1000)
  self.set_current_in_milliampere response current_in_milliampere

/-- `DPM86XX.set_voltage_and_current` (lines 495-520). -/
def DPM86XX.set_voltage_and_current (self : DPM86XX) (response : List Char)
    (voltage current : PyNumber) : SessionResult Bool :=
  match self.port with
  | none => ([], .error .notConnected)
  | some _ =>
    match make_write_voltage_and_current_command self.address voltage current with
    | .error e => ([], .error e)
    | .ok command => ([command], .ok (response == ackFrame))

/-- `DPM86XX.get_actual_current_in_milliamperes` (lines 522-543). -/
def DPM86XX.get_actual_current_in_milliamperes (self : DPM86XX)
    (response : List Char) : SessionResult Int :=
  match self.port with
  | none => ([], .error .notConnected)
  | some _ =>
    match make_read_actual_current_command self.address with
    | .error e => ([], .error e)
    | .ok command => ([command], readTail response)

/-- `DPM86XX.get_actual_current` (lines 545-558): milliamperes divided by
`1000.0`. -/
def DPM86XX.get_actual_current (self : DPM86XX) (response : List Char) :
    SessionResult ℚ :=
  let r := self.get_actual_current_in_milliamperes response
  (r.1, r.2.map (fun v => (v : ℚ) / 1000))

/-- `DPM86XX.get_cc_cv_status` (lines 560-582): parsed value compared
against 0 (the device encodes 0 = CV, 1 = CC). -/
def DPM86XX.get_cc_cv_status (self : DPM86XX) (response : List Char) :
    SessionResult Bool :=
  match self.port with
  | none => ([], .error .notConnected)
  | some _ =>
    match make_read_cc_cv_status_command self.address with
    | .error e => ([], .error e)
    | .ok command => ([command], (readTail response).map (fun v => v == 0))

/-- `DPM86XX.is_in_cv_mode` (lines 584-599). -/
def DPM86XX.is_in_cv_mode (self : DPM86XX) (response : List Char) :
    SessionResult Bool :=
  self.get_cc_cv_status response

/-- `DPM86XX.is_in_cc_mode` (lines 601-616): negation of the CC/CV query. -/
def DPM86XX.is_in_cc_mode (self : DPM86XX) (response : List Char) :
    SessionResult Bool :=
  let r := self.get_cc_cv_status response
  (r.1, r.2.map (fun b => !b))

/-- Matcher for the operand part `\d{1,5}(,\d{1,5})?,\r\n` of the spec's
frame pattern (deterministic reading of the regex). -/
def matchTail (rest : List Char) : Bool :=
  let ds := rest.takeWhile Char.isDigit
  let r1 := rest.dropWhile Char.isDigit
  decide (1 ≤ ds.length) && decide (ds.length ≤ 5) &&
    ((r1 == [',', '\r', '\n']) ||
      ((r1.take 1 == [',']) &&
        (let r2 := r1.drop 1
         let ds2 := r2.takeWhile Char.isDigit
         decide (1 ≤ ds2.length) && decide (ds2.length ≤ 5) &&
           (r2.dropWhile Char.isDigit == [',', '\r', '\n']))))

/-- Matcher for the spec's request-frame pattern
`:\d\d[rw]\d\d=\d{1,5}(,\d{1,5})?,\r\n`. -/
def matchesRequestPattern (s : List Char) : Bool :=
  match s with
  | ':' :: d1 :: d2 :: f :: d3 :: d4 :: '=' :: rest =>
    d1.isDigit && d2.isDigit && (f == 'r' || f == 'w') &&
      d3.isDigit && d4.isDigit && matchTail rest
  | _ => false

lemma natDigitChar_isDigit {n : Nat} (h : n < 10) :
    (natDigitChar n).isDigit = true := by
  interval_cases n <;> decide

lemma natDigitChar_toNat {n : Nat} (h : n < 10) :
    (natDigitChar n).toNat = 48 + n := by
  interval_cases n <;> decide

lemma natDigitsAux_all_isDigit :
    ∀ (fuel n : Nat), ∀ c ∈ natDigitsAux fuel n, c.isDigit = true := by
  intro fuel
  induction fuel with
  | zero => intro n c hc; simp [natDigitsAux] at hc
  | succ fuel ih =>
    intro n c hc
    rw [natDigitsAux] at hc
    by_cases h : n < 10
    · rw [if_pos h] at hc
      simp only [List.mem_singleton] at hc
      exact hc ▸ natDigitChar_isDigit h
    · rw [if_neg h] at hc
      rcases List.mem_append.1 hc with h1 | h1
      · exact ih _ c h1
      · simp only [List.mem_singleton] at h1
        exact h1 ▸ natDigitChar_isDigit (Nat.mod_lt _ (by norm_num))

lemma natDigitsAux_ne_nil (fuel n : Nat) (h : 1 ≤ fuel) :
    natDigitsAux fuel n ≠ [] := by
  cases fuel with
  | zero => exact absurd h (by norm_num)
  | succ fuel =>
    rw [natDigitsAux]
    by_cases h10 : n < 10
    · simp [h10]
    · simp [h10]

lemma natDigitsAux_length_le :
    ∀ (k n : Nat), n < 10 ^ k → (natDigitsAux k n).length ≤ k := by
  intro k
  induction k with
  | zero => intro n h; simp [natDigitsAux]
  | succ k ih =>
    intro n h
    rw [natDigitsAux]
    by_cases h10 : n < 10
    · simp [h10]
    · rw [if_neg h10]
      rw [List.length_append, List.length_singleton]
      have : n / 10 < 10 ^ k := by
        rw [Nat.div_lt_iff_lt_mul (by norm_num)]
        calc n < 10 ^ (k + 1) := h
        _ = 10 ^ k * 10 := by rw [pow_succ]
      exact Nat.add_le_add_right (ih _ this) 1

lemma natDigitsAux_fuel_irrel :
    ∀ (f₁ f₂ n : Nat), n < 10 ^ f₁ → n < 10 ^ f₂ → 1 ≤ f₁ → 1 ≤ f₂ →
      natDigitsAux f₁ n = natDigitsAux f₂ n := by
  intro f₁
  induction f₁ with
  | zero => intro f₂ n _ _ h1 _; exact absurd h1 (by norm_num)
  | succ k ih =>
    intro f₂ n hn₁ hn₂ _ hf₂
    cases f₂ with
    | zero => exact absurd hf₂ (by norm_num)
    | succ m =>
      rw [natDigitsAux, natDigitsAux]
      by_cases h10 : n < 10
      · rw [if_pos h10, if_pos h10]
      · rw [if_neg h10, if_neg h10]
        have hk : 1 ≤ k := by
          by_contra hk
          push_neg at hk
          interval_cases k
          simp at hn₁
          exact h10 hn₁
        have hm : 1 ≤ m := by
          by_contra hm
          push_neg at hm
          interval_cases m
          simp at hn₂
          exact h10 hn₂
        have hd₁ : n / 10 < 10 ^ k := by
          rw [Nat.div_lt_iff_lt_mul (by norm_num)]
          calc n < 10 ^ (k + 1) := hn₁
          _ = 10 ^ k * 10 := by rw [pow_succ]
        have hd₂ : n / 10 < 10 ^ m := by
          rw [Nat.div_lt_iff_lt_mul (by norm_num)]
          calc n < 10 ^ (m + 1) := hn₂
          _ = 10 ^ m * 10 := by rw [pow_succ]
        rw [ih m (n / 10) hd₁ hd₂ hk hm]

lemma lt_ten_pow_succ_self (n : Nat) : n < 10 ^ (n + 1) := by
  calc n < 2 ^ n := Nat.lt_two_pow n
  _ ≤ 10 ^ n := Nat.pow_le_pow_left (by norm_num) n
  _ ≤ 10 ^ (n + 1) := Nat.pow_le_pow_right (by norm_num) (Nat.le_succ n)

lemma natDigits_eq_aux {n k : Nat} (hk : 1 ≤ k) (h : n < 10 ^ k) :
    natDigits n = natDigitsAux k n :=
  natDigitsAux_fuel_irrel (n + 1) k n (lt_ten_pow_succ_self n) h
    (Nat.succ_le_succ (Nat.zero_le n)) hk

lemma natDigits_all_isDigit (n : Nat) : ∀ c ∈ natDigits n, c.isDigit = true :=
  natDigitsAux_all_isDigit (n + 1) n

lemma natDigits_ne_nil (n : Nat) : natDigits n ≠ [] :=
  natDigitsAux_ne_nil (n + 1) n (Nat.succ_le_succ (Nat.zero_le n))

lemma natDigits_length_pos (n : Nat) : 1 ≤ (natDigits n).length :=
  Nat.one_le_iff_ne_zero.2 (fun h => natDigits_ne_nil n (List.length_eq_zero.1 h))

lemma natDigits_length_le {n k : Nat} (hk : 1 ≤ k) (h : n < 10 ^ k) :
    (natDigits n).length ≤ k := by
  rw [natDigits_eq_aux hk h]
  exact natDigitsAux_length_le k n h

lemma foldl_natDigitsAux :
    ∀ (k n a : Nat), n < 10 ^ k →
      (natDigitsAux k n).foldl (fun a c => a * 10 + (c.toNat - 48)) a =
        a * 10 ^ (natDigitsAux k n).length + n := by
  intro k
  induction k with
  | zero => intro n a h; interval_cases n; simp [natDigitsAux]
  | succ k ih =>
    intro n a h
    rw [natDigitsAux]
    by_cases h10 : n < 10
    · rw [if_pos h10]
      simp [List.foldl, natDigitChar_toNat h10]
    · rw [if_neg h10]
      have hd : n / 10 < 10 ^ k := by
        rw [Nat.div_lt_iff_lt_mul (by norm_num)]
        calc n < 10 ^ (k + 1) := h
        _ = 10 ^ k * 10 := by rw [pow_succ]
      rw [List.foldl_append, ih (n / 10) a hd]
      simp only [List.foldl, List.length_append, List.length_singleton]
      rw [natDigitChar_toNat (Nat.mod_lt _ (by norm_num))]
      have : 48 + n % 10 - 48 = n % 10 := by omega
      rw [this, pow_succ]
      have hmod := Nat.div_add_mod n 10
      ring_nf
      omega

lemma foldl_natDigits (n : Nat) :
    (natDigits n).foldl (fun a c => a * 10 + (c.toNat - 48)) 0 = n := by
  have := foldl_natDigitsAux (n + 1) n 0 (lt_ten_pow_succ_self n)
  rw [natDigits]
  omega

lemma takeWhile_append_false {p : Char → Bool} :
    ∀ (l₁ : List Char) (c : Char) (l₂ : List Char),
      (∀ x ∈ l₁, p x = true) → p c = false →
      (l₁ ++ c :: l₂).takeWhile p = l₁ := by
  intro l₁
  induction l₁ with
  | nil =>
    intro c l₂ _ hc
    simp [List.takeWhile_cons, hc]
  | cons a t ih =>
    intro c l₂ hall hc
    have ha : p a = true := hall a (List.mem_cons_self a t)
    simp only [List.cons_append, List.takeWhile_cons, ha]
    rw [ih c l₂ (fun x hx => hall x (List.mem_cons_of_mem a hx)) hc]
    simp

lemma dropWhile_append_false {p : Char → Bool} :
    ∀ (l₁ : List Char) (c : Char) (l₂ : List Char),
      (∀ x ∈ l₁, p x = true) → p c = false →
      (l₁ ++ c :: l₂).dropWhile p = c :: l₂ := by
  intro l₁
  induction l₁ with
  | nil =>
    intro c l₂ _ hc
    simp [List.dropWhile_cons, hc]
  | cons a t ih =>
    intro c l₂ hall hc
    have ha : p a = true := hall a (List.mem_cons_self a t)
    simp only [List.cons_append, List.dropWhile_cons, ha]
    exact ih c l₂ (fun x hx => hall x (List.mem_cons_of_mem a hx)) hc

lemma dropWhile_eq_self_of_none {p : Char → Bool} :
    ∀ (l : List Char), (∀ x ∈ l, p x = false) → l.dropWhile p = l := by
  intro l
  cases l with
  | nil => intro _; rfl
  | cons a t =>
    intro hall
    have := hall a (List.mem_cons_self a t)
    simp [List.dropWhile_cons, this]

lemma isDigit_not_pySpace {c : Char} (h : c.isDigit = true) :
    isPySpace c = false := by
  rw [isPySpace]
  by_contra hc
  simp only [Bool.or_eq_true, beq_iff_eq, Bool.not_eq_false] at hc
  rcases hc with ((((h1 | h1) | h1) | h1) | h1) | h1 <;>
    (subst h1; simp [Char.isDigit] at h)

lemma isDigit_ne_plus {c : Char} (h : c.isDigit = true) : c ≠ '+' := by
  intro heq; subst heq; simp [Char.isDigit] at h

lemma isDigit_ne_minus {c : Char} (h : c.isDigit = true) : c ≠ '-' := by
  intro heq; subst heq; simp [Char.isDigit] at h

lemma pyStrip_all_digits {l : List Char} (h : ∀ x ∈ l, Char.isDigit x = true) :
    pyStrip l = l := by
  rw [pyStrip]
  rw [dropWhile_eq_self_of_none l (fun x hx => isDigit_not_pySpace (h x hx))]
  rw [dropWhile_eq_self_of_none l.reverse
    (fun x hx => isDigit_not_pySpace (h x (List.mem_reverse.1 hx)))]
  exact List.reverse_reverse l

lemma pyDigitRun_all_digits :
    ∀ (ds : List Char), ds ≠ [] → (∀ c ∈ ds, c.isDigit = true) →
      pyDigitRun ds = true := by
  intro ds
  induction ds with
  | nil => intro h _; exact absurd rfl h
  | cons c rest ih =>
    intro _ hall
    cases rest with
    | nil =>
      simp [pyDigitRun, hall c (List.mem_cons_self c [])]
    | cons r rest2 =>
      have hc : c.isDigit = true := hall c (List.mem_cons_self c (r :: rest2))
      have hr : r.isDigit = true := hall r (by simp)
      have hne : ¬(r = '_') := by
        intro h; subst h; simp [Char.isDigit] at hr
      rw [pyDigitRun, hc, Bool.true_and, if_neg hne]
      exact ih (by simp) (fun x hx => hall x (List.mem_cons_of_mem c hx))

lemma filter_ne_underscore_of_digits {l : List Char}
    (h : ∀ c ∈ l, c.isDigit = true) :
    l.filter (fun c => c != '_') = l := by
  induction l with
  | nil => rfl
  | cons c t ih =>
    have hc : c.isDigit = true := h c (List.mem_cons_self c t)
    have hne : (c != '_') = true := by
      rw [bne_iff_ne]
      intro he; subst he; simp [Char.isDigit] at hc
    simp only [List.filter_cons, hne, if_true]
    rw [ih (fun x hx => h x (List.mem_cons_of_mem c hx))]

lemma parseDigits_natDigits (n : Nat) :
    parseDigits (natDigits n) = some n := by
  rw [parseDigits, if_pos (pyDigitRun_all_digits (natDigits n)
    (natDigits_ne_nil n) (natDigits_all_isDigit n))]
  rw [filter_ne_underscore_of_digits (natDigits_all_isDigit n), foldl_natDigits]

lemma pyIntParse_natDigits (n : Nat) :
    pyIntParse (natDigits n) = some (n : Int) := by
  have hall := natDigits_all_isDigit n
  have hstrip := pyStrip_all_digits hall
  rcases hne : natDigits n with _ | ⟨c, rest⟩
  · exact absurd hne (natDigits_ne_nil n)
  · rw [hne] at hstrip
    have hc : c.isDigit = true := hall c (hne ▸ List.mem_cons_self c rest)
    have hplus : ¬(c = '+') := isDigit_ne_plus hc
    have hminus : ¬(c = '-') := isDigit_ne_minus hc
    rw [pyIntParse, hstrip]
    simp only [hplus, hminus, if_false, if_neg]
    rw [← hne, parseDigits_natDigits]
    rfl

lemma intStr_nonneg {i : Int} (h : 0 ≤ i) : intStr i = natDigits i.toNat := by
  rw [intStr, if_neg (by omega)]

lemma pyIntParse_intStr {i : Int} (h : 0 ≤ i) :
    pyIntParse (intStr i) = some i := by
  rw [intStr_nonneg h, pyIntParse_natDigits, Int.toNat_of_nonneg h]

lemma intStr_all_isDigit {i : Int} (h : 0 ≤ i) :
    ∀ c ∈ intStr i, c.isDigit = true := by
  rw [intStr_nonneg h]; exact natDigits_all_isDigit i.toNat

lemma intStr_length_pos {i : Int} (h : 0 ≤ i) : 1 ≤ (intStr i).length := by
  rw [intStr_nonneg h]; exact natDigits_length_pos i.toNat

lemma intStr_length_le_five {i : Int} (h1 : 0 ≤ i) (h2 : i ≤ 65536) :
    (intStr i).length ≤ 5 := by
  rw [intStr_nonneg h1]
  exact natDigits_length_le (by norm_num) (by
    have : i.toNat ≤ 65536 := by omega
    calc i.toNat ≤ 65536 := this
    _ < 10 ^ 5 := by norm_num)

lemma pad2_spec {i : Int} (h1 : 0 ≤ i) (h2 : i ≤ 99) :
    ∃ c1 c2, pad2 i = [c1, c2] ∧ c1.isDigit = true ∧ c2.isDigit = true := by
  have hd := intStr_all_isDigit h1
  have hlen2 : (intStr i).length ≤ 2 := by
    rw [intStr_nonneg h1]
    exact natDigits_length_le (by norm_num) (by
      have : i.toNat ≤ 99 := by omega
      calc i.toNat ≤ 99 := this
      _ < 10 ^ 2 := by norm_num)
  have hlen1 := intStr_length_pos h1
  rw [pad2]
  by_cases hlt : (intStr i).length < 2
  · have : (intStr i).length = 1 := by omega
    obtain ⟨c, hc⟩ := List.length_eq_one.1 this
    refine ⟨'0', c, ?_, by decide, ?_⟩
    · simp [hc]
    · exact hd c (hc ▸ List.mem_singleton_self c)
  · have : (intStr i).length = 2 := by omega
    obtain ⟨c1, c2, hc⟩ := List.length_eq_two.1 this
    refine ⟨c1, c2, ?_, ?_, ?_⟩
    · simp [hc]
    · exact hd c1 (hc ▸ (by simp : c1 ∈ [c1, c2]))
    · exact hd c2 (hc ▸ (by simp : c2 ∈ [c1, c2]))

lemma make_command_ok_none {a : Int} {f : Char} {m op : Int}
    (ha : 1 ≤ a ∧ a ≤ 99) (hm : 0 ≤ m ∧ m ≤ 99) (hop : 0 ≤ op ∧ op ≤ 65536)
    (hf : f = 'r' ∨ f = 'w') :
    make_command a f m op none = .ok (buildFrame a f m (intStr op)) := by
  rw [make_command, if_neg (not_not_intro ha), if_neg (not_not_intro hm),
    if_neg (not_not_intro hop)]
  exact if_neg (not_not_intro hf)

lemma make_command_ok_some {a : Int} {f : Char} {m op op2 : Int}
    (ha : 1 ≤ a ∧ a ≤ 99) (hm : 0 ≤ m ∧ m ≤ 99) (hop : 0 ≤ op ∧ op ≤ 65536)
    (hop2 : 0 ≤ op2 ∧ op2 ≤ 65536) (hf : f = 'r' ∨ f = 'w') :
    make_command a f m op (some op2) =
      .ok (buildFrame a f m (intStr op ++ ',' :: intStr op2)) := by
  rw [make_command, if_neg (not_not_intro ha), if_neg (not_not_intro hm),
    if_neg (not_not_intro hop)]
  show (match (if ¬(0 ≤ op2 ∧ op2 ≤ 65536) then
      Except.error (DPMError.validation vErrOperand2)
    else .ok (intStr op ++ ',' :: intStr op2) : Except DPMError (List Char)) with
    | .error e => Except.error e
    | .ok operandStr =>
      if ¬(f = 'r' ∨ f = 'w') then .error (.validation vErrFunction)
      else .ok (buildFrame a f m operandStr)) = _
  rw [if_neg (not_not_intro hop2)]
  exact if_neg (not_not_intro hf)

lemma matchTail_single {ds : List Char} (hall : ∀ c ∈ ds, c.isDigit = true)
    (h1 : 1 ≤ ds.length) (h5 : ds.length ≤ 5) :
    matchTail (ds ++ [',', '\r', '\n']) = true := by
  simp only [matchTail]
  rw [takeWhile_append_false ds ',' ['\r', '\n'] hall (by decide),
    dropWhile_append_false ds ',' ['\r', '\n'] hall (by decide)]
  simp [h1, h5]

lemma matchTail_double {ds ds2 : List Char}
    (hall : ∀ c ∈ ds, c.isDigit = true) (hall2 : ∀ c ∈ ds2, c.isDigit = true)
    (h1 : 1 ≤ ds.length) (h5 : ds.length ≤ 5)
    (h1' : 1 ≤ ds2.length) (h5' : ds2.length ≤ 5) :
    matchTail (ds ++ ',' :: (ds2 ++ [',', '\r', '\n'])) = true := by
  simp only [matchTail]
  rw [takeWhile_append_false ds ',' (ds2 ++ [',', '\r', '\n']) hall (by decide),
    dropWhile_append_false ds ',' (ds2 ++ [',', '\r', '\n']) hall (by decide)]
  simp only [List.take_succ_cons, List.take_zero, List.drop_one, List.tail_cons,
    List.drop_succ_cons, List.drop_zero]
  simp only [takeWhile_append_false ds2 ',' ['\r', '\n'] hall2 (by decide),
    dropWhile_append_false ds2 ',' ['\r', '\n'] hall2 (by decide)]
  simp [h1, h5, h1', h5']

lemma matchesRequestPattern_buildFrame {a : Int} {f : Char} {m : Int}
    {opStr : List Char} (ha : 1 ≤ a ∧ a ≤ 99) (hm : 0 ≤ m ∧ m ≤ 99)
    (hf : f = 'r' ∨ f = 'w')
    (htail : matchTail (opStr ++ [',', '\r', '\n']) = true) :
    matchesRequestPattern (buildFrame a f m opStr) = true := by
  have ha0 : (0 : Int) ≤ a := by omega
  obtain ⟨a1, a2, hpa, ha1, ha2⟩ := pad2_spec ha0 ha.2
  obtain ⟨m1, m2, hpm, hm1, hm2⟩ := pad2_spec hm.1 hm.2
  rw [buildFrame, hpa, hpm]
  simp only [List.cons_append, List.nil_append]
  simp only [matchesRequestPattern]
  rcases hf with hf | hf <;> subst hf <;> simp [ha1, ha2, hm1, hm2, htail]

/-- C1: for every address in [1,99], direction in {'r','w'}, function member
in [0,99], operand in [0,65536] and optional second operand in [0,65536],
`make_command` succeeds and the returned byte string matches the pattern
`:\d\d[rw]\d\d=\d{1,5}(,\d{1,5})?,\r\n` — colon, 2-digit zero-padded
address, direction char, 2-digit zero-padded function member, equals sign,
1-5 operand digits, optional comma plus 1-5 second-operand digits, trailing
comma, CRLF. -/
theorem make_command_matches_frame_pattern
    (address : Int) (function : Char) (function_member operand : Int)
    (operand2 : Option Int)
    (ha1 : 1 ≤ address) (ha2 : address ≤ 99)
    (hf : function = 'r' ∨ function = 'w')
    (hm1 : 0 ≤ function_member) (hm2 : function_member ≤ 99)
    (hop1 : 0 ≤ operand) (hop2 : operand ≤ 65536)
    (hop2' : ∀ o2, operand2 = some o2 → 0 ≤ o2 ∧ o2 ≤ 65536) :
    ∃ frame,
      make_command address function function_member operand operand2 = .ok frame ∧
        matchesRequestPattern frame = true := by
  cases operand2 with
  | none =>
    refine ⟨buildFrame address function function_member (intStr operand),
      make_command_ok_none ⟨ha1, ha2⟩ ⟨hm1, hm2⟩ ⟨hop1, hop2⟩ hf, ?_⟩
    exact matchesRequestPattern_buildFrame ⟨ha1, ha2⟩ ⟨hm1, hm2⟩ hf
      (matchTail_single (intStr_all_isDigit hop1) (intStr_length_pos hop1)
        (intStr_length_le_five hop1 hop2))
  | some o2 =>
    obtain ⟨ho1, ho2⟩ := hop2' o2 rfl
    refine ⟨buildFrame address function function_member
      (intStr operand ++ ',' :: intStr o2),
      make_command_ok_some ⟨ha1, ha2⟩ ⟨hm1, hm2⟩ ⟨hop1, hop2⟩ ⟨ho1, ho2⟩ hf, ?_⟩
    apply matchesRequestPattern_buildFrame ⟨ha1, ha2⟩ ⟨hm1, hm2⟩ hf
    have : (intStr operand ++ ',' :: intStr o2) ++ [',', '\r', '\n'] =
        intStr operand ++ ',' :: (intStr o2 ++ [',', '\r', '\n']) := by
      simp [List.append_assoc]
    rw [this]
    exact matchTail_double (intStr_all_isDigit hop1) (intStr_all_isDigit ho1)
      (intStr_length_pos hop1) (intStr_length_le_five hop1 hop2)
      (intStr_length_pos ho1) (intStr_length_le_five ho1 ho2)

/-- Witness for C1 at address 1, direction 'w', function member 20, operand
1234, second operand 65536. -/
theorem make_command_matches_frame_pattern_witness :
    ∃ frame, make_command 1 'w' 20 1234 (some 65536) = .ok frame ∧
      matchesRequestPattern frame = true :=
  make_command_matches_frame_pattern 1 'w' 20 1234 (some 65536)
    (by decide) (by decide) (Or.inr rfl) (by decide) (by decide)
    (by decide) (by decide)
    (fun o2 h => by cases h; exact ⟨by decide, by decide⟩)

/-- C2: `make_command` validates in the exact order address, function
member, operand, second operand (when given), then direction; the first
failing check yields the `ValidationError` naming that field and its bound
(no serialization or I/O happens — the result is the error itself), and
with several invalid fields the earliest in that order wins. -/
theorem make_command_validation_order
    (address : Int) (function : Char) (function_member operand : Int)
    (operand2 : Option Int) :
    (¬(1 ≤ address ∧ address ≤ 99) →
      make_command address function function_member operand operand2 =
        .error (.validation vErrAddress)) ∧
    ((1 ≤ address ∧ address ≤ 99) → ¬(0 ≤ function_member ∧ function_member ≤ 99) →
      make_command address function function_member operand operand2 =
        .error (.validation vErrFunctionMember)) ∧
    ((1 ≤ address ∧ address ≤ 99) → (0 ≤ function_member ∧ function_member ≤ 99) →
      ¬(0 ≤ operand ∧ operand ≤ 65536) →
      make_command address function function_member operand operand2 =
        .error (.validation vErrOperand)) ∧
    (∀ o2, (1 ≤ address ∧ address ≤ 99) → (0 ≤ function_member ∧ function_member ≤ 99) →
      (0 ≤ operand ∧ operand ≤ 65536) → operand2 = some o2 →
      ¬(0 ≤ o2 ∧ o2 ≤ 65536) →
      make_command address function function_member operand operand2 =
        .error (.validation vErrOperand2)) ∧
    ((1 ≤ address ∧ address ≤ 99) → (0 ≤ function_member ∧ function_member ≤ 99) →
      (0 ≤ operand ∧ operand ≤ 65536) →
      (∀ o2, operand2 = some o2 → 0 ≤ o2 ∧ o2 ≤ 65536) →
      ¬(function = 'r' ∨ function = 'w') →
      make_command address function function_member operand operand2 =
        .error (.validation vErrFunction)) := by
  refine ⟨?_, ?_, ?_, ?_, ?_⟩
  · intro h
    rw [make_command.eq_def, if_pos h]
  · intro ha h
    rw [make_command.eq_def, if_neg (not_not_intro ha), if_pos h]
  · intro ha hm h
    rw [make_command.eq_def, if_neg (not_not_intro ha), if_neg (not_not_intro hm),
      if_pos h]
  · intro o2 ha hm hop ho2 h
    subst ho2
    rw [make_command, if_neg (not_not_intro ha), if_neg (not_not_intro hm),
      if_neg (not_not_intro hop)]
    show (match (if ¬(0 ≤ o2 ∧ o2 ≤ 65536) then
        Except.error (DPMError.validation vErrOperand2)
      else .ok (intStr operand ++ ',' :: intStr o2) : Except DPMError (List Char)) with
      | .error e => Except.error e
      | .ok operandStr =>
        if ¬(function = 'r' ∨ function = 'w') then .error (.validation vErrFunction)
        else .ok (buildFrame address function function_member operandStr)) = _
    rw [if_pos h]
  · intro ha hm hop ho2 h
    cases operand2 with
    | none =>
      rw [make_command, if_neg (not_not_intro ha), if_neg (not_not_intro hm),
        if_neg (not_not_intro hop)]
      exact if_pos h
    | some o2 =>
      rw [make_command, if_neg (not_not_intro ha), if_neg (not_not_intro hm),
        if_neg (not_not_intro hop)]
      show (match (if ¬(0 ≤ o2 ∧ o2 ≤ 65536) then
          Except.error (DPMError.validation vErrOperand2)
        else .ok (intStr operand ++ ',' :: intStr o2) : Except DPMError (List Char)) with
        | .error e => Except.error e
        | .ok operandStr =>
          if ¬(function = 'r' ∨ function = 'w') then .error (.validation vErrFunction)
          else .ok (buildFrame address function function_member operandStr)) = _
      rw [if_neg (not_not_intro (ho2 o2 rfl))]
      exact if_pos h

/-- Witness for C2: with every field invalid (address 0, direction 'x',
function member 100, operand 70000, second operand 70000) the address error
wins; and with only the later fields invalid the earliest of them wins. -/
theorem make_command_validation_order_witness :
    make_command 0 'x' 100 70000 (some 70000) = .error (.validation vErrAddress) ∧
    make_command 1 'x' 100 70000 (some 70000) =
      .error (.validation vErrFunctionMember) ∧
    make_command 1 'x' 99 70000 (some 70000) = .error (.validation vErrOperand) ∧
    make_command 1 'x' 99 65536 (some 70000) = .error (.validation vErrOperand2) ∧
    make_command 1 'x' 99 65536 (some 65536) = .error (.validation vErrFunction) :=
  ⟨(make_command_validation_order 0 'x' 100 70000 (some 70000)).1 (by decide),
   (make_command_validation_order 1 'x' 100 70000 (some 70000)).2.1
     (by decide) (by decide),
   (make_command_validation_order 1 'x' 99 70000 (some 70000)).2.2.1
     (by decide) (by decide) (by decide),
   (make_command_validation_order 1 'x' 99 65536 (some 70000)).2.2.2.1 70000
     (by decide) (by decide) (by decide) rfl (by decide),
   (make_command_validation_order 1 'x' 99 65536 (some 65536)).2.2.2.2
     (by decide) (by decide) (by decide)
     (fun o2 h => by cases h; exact ⟨by decide, by decide⟩) (by decide)⟩

lemma pyTrunc_intCast (n : Int) : pyTrunc ((n : ℚ)) = n := by
  rw [pyTrunc, Rat.num_intCast, Rat.den_intCast]
  simp

lemma toCentivolts_pyFloat {q : ℚ} {n : Int} (h : q * 100 = (n : ℚ)) :
    toCentivolts (.pyFloat q) = n := by
  rw [toCentivolts, h, pyTrunc_intCast]

lemma toMilliamperes_pyFloat {q : ℚ} {n : Int} (h : q * 1000 = (n : ℚ)) :
    toMilliamperes (.pyFloat q) = n := by
  rw [toMilliamperes, h, pyTrunc_intCast]

/-- C3: the voltage builder obeys the dual-unit convention — an integer is
passed through as centivolts unconverted, a float is multiplied by 100 and
truncated to an integer, so `make_write_voltage_command 1 1234` and
`make_write_voltage_command 1 12.34` both return `b':01w10=1234,\r\n'`; any
input whose centivolt value lies outside [0, 6000] is rejected with the
voltage `ValidationError`. -/
theorem make_write_voltage_command_dual_unit :
    (∀ n : Int, toCentivolts (.pyInt n) = n) ∧
    (∀ q : ℚ, toCentivolts (.pyFloat q) = pyTrunc (q * 100)) ∧
    make_write_voltage_command 1 (.pyInt 1234) =
      .ok (":01w10=1234,\r\n".toList) ∧
    make_write_voltage_command 1 (.pyFloat (12.34 : ℚ)) =
      .ok (":01w10=1234,\r\n".toList) ∧
    (∀ (address : Int) (voltage : PyNumber),
      ¬(0 ≤ toCentivolts voltage ∧ toCentivolts voltage ≤ 6000) →
      make_write_voltage_command address voltage =
        .error (.validation vErrVoltage)) := by
  refine ⟨fun n => rfl, fun q => rfl, rfl, ?_, ?_⟩
  · have h : toCentivolts (.pyFloat (12.34 : ℚ)) = (1234 : Int) :=
      toCentivolts_pyFloat (by push_cast; norm_num)
    simp only [make_write_voltage_command, h]
    rfl
  · intro address voltage h
    simp only [make_write_voltage_command]
    rw [if_pos h]

/-- Witness for C3's rejection clause: −1234 centivolts and 7030 centivolts
(as well as 70.3 volts) are rejected. -/
theorem make_write_voltage_command_dual_unit_witness :
    make_write_voltage_command 1 (.pyInt (-1234)) =
      .error (.validation vErrVoltage) ∧
    make_write_voltage_command 1 (.pyInt 7030) =
      .error (.validation vErrVoltage) :=
  ⟨make_write_voltage_command_dual_unit.2.2.2.2 1 (.pyInt (-1234)) (by decide),
   make_write_voltage_command_dual_unit.2.2.2.2 1 (.pyInt 7030) (by decide)⟩

/-- C4: round-trip — for every valid single-operand request, slicing the
produced frame at bytes 7 through length−3 (the slice the response parser
uses) yields exactly the decimal representation of the operand, and parsing
that slice back as an integer recovers the operand value. -/
theorem make_command_round_trip
    (address : Int) (function : Char) (function_member operand : Int)
    (ha1 : 1 ≤ address) (ha2 : address ≤ 99)
    (hf : function = 'r' ∨ function = 'w')
    (hm1 : 0 ≤ function_member) (hm2 : function_member ≤ 99)
    (hop1 : 0 ≤ operand) (hop2 : operand ≤ 65536) :
    ∃ frame,
      make_command address function function_member operand none = .ok frame ∧
        pySlice7toM3 frame = intStr operand ∧
        pyIntParse (pySlice7toM3 frame) = some operand := by
  obtain ⟨a1, a2, hpa, _, _⟩ := pad2_spec (by omega : (0 : Int) ≤ address) ha2
  obtain ⟨m1, m2, hpm, _, _⟩ := pad2_spec hm1 hm2
  refine ⟨buildFrame address function function_member (intStr operand),
    make_command_ok_none ⟨ha1, ha2⟩ ⟨hm1, hm2⟩ ⟨hop1, hop2⟩ hf, ?_, ?_⟩
  · rw [buildFrame, hpa, hpm]
    simp only [List.cons_append, List.nil_append]
    rw [pySlice7toM3]
    have hdrop :
        (':' :: a1 :: a2 :: function :: m1 :: m2 :: '=' ::
          (intStr operand ++ [',', '\r', '\n'])).drop 7 =
          intStr operand ++ [',', '\r', '\n'] := rfl
    have hlen :
        (':' :: a1 :: a2 :: function :: m1 :: m2 :: '=' ::
          (intStr operand ++ [',', '\r', '\n'])).length - 10 =
          (intStr operand).length := by
      simp only [List.length_cons, List.length_append]
      simp
    rw [hdrop, hlen]
    simp
  · rw [buildFrame, hpa, hpm]
    simp only [List.cons_append, List.nil_append]
    rw [pySlice7toM3]
    have hlen :
        (':' :: a1 :: a2 :: function :: m1 :: m2 :: '=' ::
          (intStr operand ++ [',', '\r', '\n'])).length - 10 =
          (intStr operand).length := by
      simp only [List.length_cons, List.length_append]
      simp
    rw [show (':' :: a1 :: a2 :: function :: m1 :: m2 :: '=' ::
      (intStr operand ++ [',', '\r', '\n'])).drop 7 =
      intStr operand ++ [',', '\r', '\n'] from rfl, hlen]
    rw [show (intStr operand ++ [',', '\r', '\n']).take (intStr operand).length =
      intStr operand by simp]
    exact pyIntParse_intStr hop1

/-- Witness for C4 at address 1, direction 'r', function member 33, operand
245. -/
theorem make_command_round_trip_witness :
    ∃ frame, make_command 1 'r' 33 245 none = .ok frame ∧
      pySlice7toM3 frame = intStr 245 ∧
      pyIntParse (pySlice7toM3 frame) = some 245 :=
  make_command_round_trip 1 'r' 33 245 (by decide) (by decide) (Or.inl rfl)
    (by decide) (by decide) (by decide) (by decide)

lemma make_write_voltage_command_ok {a : Int} {v : PyNumber}
    (ha : 1 ≤ a ∧ a ≤ 99)
    (h : 0 ≤ toCentivolts v ∧ toCentivolts v ≤ 6000) :
    make_write_voltage_command a v =
      .ok (buildFrame a 'w' 10 (intStr (toCentivolts v))) := by
  simp only [make_write_voltage_command]
  rw [if_neg (not_not_intro h)]
  exact make_command_ok_none ha ⟨by norm_num, by norm_num⟩ ⟨h.1, by omega⟩
    (Or.inr rfl)

lemma make_write_current_command_ok {a : Int} {c : PyNumber}
    (ha : 1 ≤ a ∧ a ≤ 99)
    (h : 0 ≤ toMilliamperes c ∧ toMilliamperes c ≤ 24000) :
    make_write_current_command a c =
      .ok (buildFrame a 'w' 11 (intStr (toMilliamperes c))) := by
  simp only [make_write_current_command]
  rw [if_neg (not_not_intro h)]
  exact make_command_ok_none ha ⟨by norm_num, by norm_num⟩ ⟨h.1, by omega⟩
    (Or.inr rfl)

lemma make_write_output_status_command_ok {a : Int}
    (ha : 1 ≤ a ∧ a ≤ 99) (st : PyStatus) :
    ∃ c, make_write_output_status_command a st = .ok c := by
  simp only [make_write_output_status_command]
  cases hb : (match st with | PyStatus.pyInt n => !(n == 0) | PyStatus.pyBool b => b) with
  | false =>
    exact ⟨_, by
      rw [if_neg (by decide : ¬(false = true))]
      exact make_command_ok_none ha ⟨by norm_num, by norm_num⟩
        ⟨by norm_num, by norm_num⟩ (Or.inr rfl)⟩
  | true =>
    exact ⟨_, by
      rw [if_pos rfl]
      exact make_command_ok_none ha ⟨by norm_num, by norm_num⟩
        ⟨by norm_num, by norm_num⟩ (Or.inr rfl)⟩

lemma make_write_voltage_and_current_command_ok {a : Int} {v c : PyNumber}
    (ha : 1 ≤ a ∧ a ≤ 99)
    (hv : 0 ≤ toCentivolts v ∧ toCentivolts v ≤ 6000)
    (hc : 0 ≤ toMilliamperes c ∧ toMilliamperes c ≤ 24000) :
    make_write_voltage_and_current_command a v c =
      .ok (buildFrame a 'w' 20
        (intStr (toCentivolts v) ++ ',' :: intStr (toMilliamperes c))) := by
  simp only [make_write_voltage_and_current_command]
  rw [if_neg (not_not_intro hv), if_neg (not_not_intro hc)]
  exact make_command_ok_some ha ⟨by norm_num, by norm_num⟩ ⟨hv.1, by omega⟩
    ⟨hc.1, by omega⟩ (Or.inr rfl)

/-- Counterexample to C5 as stated: the acknowledgment literal `b':01ok\r\n'`
is 7 bytes long, not 8, and the write operations return `True` on that
7-byte response — so "returns True iff the response is exactly the 8-byte
literal" is false at this input. -/
theorem ack_literal_is_seven_bytes :
    (DPM86XX.set_output_status ⟨some (), 1⟩ ackFrame (.pyInt 1)).2 = .ok true ∧
      ackFrame.length = 7 :=
  ⟨rfl, rfl⟩

/-- C5 (amended: the acknowledgment literal `b':01ok\r\n'` is 7 bytes, not
8): every session write operation with valid parameters and a bound channel
returns `True` iff the channel's response is exactly the literal
`b':01ok\r\n'`; any other byte sequence makes it return `False` without
raising any error. -/
theorem write_operations_ack_exact_literal
    (s : DPM86XX) (response : List Char)
    (hp : s.port = some ()) (ha1 : 1 ≤ s.address) (ha2 : s.address ≤ 99) :
    ((response == ackFrame) = true ↔ response = ackFrame) ∧
    (∀ v : Int, 0 ≤ v → v ≤ 6000 →
      (s.set_voltage_in_centivolts response v).2 = .ok (response == ackFrame)) ∧
    (∀ voltage : PyNumber,
      0 ≤ toCentivolts (.pyFloat voltage.toRat) →
      toCentivolts (.pyFloat voltage.toRat) ≤ 6000 →
      (s.set_voltage response voltage).2 = .ok (response == ackFrame)) ∧
    (∀ ma : Int, 0 ≤ ma → ma ≤ 24000 →
      (s.set_current_in_milliampere response ma).2 = .ok (response == ackFrame)) ∧
    (∀ current : PyNumber,
      0 ≤ pyTrunc (current.toRat * 1000) →
      pyTrunc (current.toRat * 1000) ≤ 24000 →
      (s.set_current response current).2 = .ok (response == ackFrame)) ∧
    (∀ status : PyStatus,
      (s.set_output_status response status).2 = .ok (response == ackFrame)) ∧
    (∀ voltage current : PyNumber,
      0 ≤ toCentivolts voltage → toCentivolts voltage ≤ 6000 →
      0 ≤ toMilliamperes current → toMilliamperes current ≤ 24000 →
      (s.set_voltage_and_current response voltage current).2 =
        .ok (response == ackFrame)) := by
  obtain ⟨p, addr⟩ := s
  simp only at hp ha1 ha2
  subst hp
  have hmil : ∀ ma : Int, 0 ≤ ma → ma ≤ 24000 →
      (DPM86XX.set_current_in_milliampere ⟨some (), addr⟩ response ma).2 =
        .ok (response == ackFrame) := by
    intro ma h1 h2
    simp only [DPM86XX.set_current_in_milliampere]
    rw [make_write_current_command_ok ⟨ha1, ha2⟩
      (by exact ⟨h1, h2⟩ : 0 ≤ toMilliamperes (.pyInt ma) ∧
        toMilliamperes (.pyInt ma) ≤ 24000)]
  refine ⟨beq_iff_eq, ?_, ?_, hmil, ?_, ?_, ?_⟩
  · intro v h1 h2
    simp only [DPM86XX.set_voltage_in_centivolts]
    rw [make_write_voltage_command_ok ⟨ha1, ha2⟩
      (by exact ⟨h1, h2⟩ : 0 ≤ toCentivolts (.pyInt v) ∧
        toCentivolts (.pyInt v) ≤ 6000)]
  · intro voltage h1 h2
    simp only [DPM86XX.set_voltage]
    rw [make_write_voltage_command_ok ⟨ha1, ha2⟩ ⟨h1, h2⟩]
  · intro current h1 h2
    simp only [DPM86XX.set_current]
    exact hmil _ h1 h2
  · intro status
    obtain ⟨c, hc⟩ := make_write_output_status_command_ok ⟨ha1, ha2⟩ status
    simp only [DPM86XX.set_output_status]
    rw [hc]
  · intro voltage current hv1 hv2 hc1 hc2
    simp only [DPM86XX.set_voltage_and_current]
    rw [make_write_voltage_and_current_command_ok ⟨ha1, ha2⟩ ⟨hv1, hv2⟩ ⟨hc1, hc2⟩]

/-- Witness for C5: with a bound channel at address 1, writing 1234
centivolts returns `True` on the exact acknowledgment literal and `False`
on a response differing in its last byte. -/
theorem write_operations_ack_exact_literal_witness :
    (DPM86XX.set_voltage_in_centivolts ⟨some (), 1⟩ ackFrame 1234).2 =
      .ok (ackFrame == ackFrame) ∧
    (DPM86XX.set_voltage_in_centivolts ⟨some (), 1⟩
        [':', '0', '1', 'o', 'k', '\r', '\r'] 1234).2 =
      .ok ([':', '0', '1', 'o', 'k', '\r', '\r'] == ackFrame) :=
  ⟨(write_operations_ack_exact_literal ⟨some (), 1⟩ ackFrame rfl
      (by decide) (by decide)).2.1 1234 (by decide) (by decide),
   (write_operations_ack_exact_literal ⟨some (), 1⟩
      [':', '0', '1', 'o', 'k', '\r', '\r'] rfl
      (by decide) (by decide)).2.1 1234 (by decide) (by decide)⟩

lemma readTail_short {r : List Char} (h : r.length < 11) :
    readTail r = .error (.frameTooShort r) := by
  rw [readTail, if_pos h]

lemma readTail_long {r : List Char} (h : 11 ≤ r.length) :
    readTail r = match pyIntParse (pySlice7toM3 r) with
      | none => .error .malformedNumber
      | some v => .ok v := by
  rw [readTail, if_neg (by omega)]

lemma make_read_command_ok {a m : Int} (ha : 1 ≤ a ∧ a ≤ 99)
    (hm : 0 ≤ m ∧ m ≤ 99) :
    make_command a 'r' m 0 none = .ok (buildFrame a 'r' m (intStr 0)) :=
  make_command_ok_none ha hm ⟨by norm_num, by norm_num⟩ (Or.inl rfl)

/-- C6: every session read operation with a bound channel fails with the
frame-too-short error when the response has fewer than 11 bytes — without
attempting numeric parsing — and with at least 11 bytes parses the slice
from byte 7 up to length−3 as the numeric payload. -/
theorem read_operations_min_frame_length
    (s : DPM86XX) (response : List Char)
    (hp : s.port = some ()) (ha1 : 1 ≤ s.address) (ha2 : s.address ≤ 99) :
    ((response.length < 11 →
      (s.get_temperature response).2 = .error (.frameTooShort response)) ∧
     (11 ≤ response.length →
      (s.get_temperature response).2 =
        match pyIntParse (pySlice7toM3 response) with
        | none => .error .malformedNumber
        | some v => .ok v)) ∧
    ((response.length < 11 →
      (s.get_actual_voltage_in_centivolts response).2 =
        .error (.frameTooShort response)) ∧
     (11 ≤ response.length →
      (s.get_actual_voltage_in_centivolts response).2 =
        match pyIntParse (pySlice7toM3 response) with
        | none => .error .malformedNumber
        | some v => .ok v)) ∧
    ((response.length < 11 →
      (s.get_actual_current_in_milliamperes response).2 =
        .error (.frameTooShort response)) ∧
     (11 ≤ response.length →
      (s.get_actual_current_in_milliamperes response).2 =
        match pyIntParse (pySlice7toM3 response) with
        | none => .error .malformedNumber
        | some v => .ok v)) ∧
    ((response.length < 11 →
      (s.get_output_status response).2 = .error (.frameTooShort response)) ∧
     (11 ≤ response.length →
      (s.get_output_status response).2 =
        match pyIntParse (pySlice7toM3 response) with
        | none => .error .malformedNumber
        | some v => .ok (v == 1))) ∧
    ((response.length < 11 →
      (s.get_cc_cv_status response).2 = .error (.frameTooShort response)) ∧
     (11 ≤ response.length →
      (s.get_cc_cv_status response).2 =
        match pyIntParse (pySlice7toM3 response) with
        | none => .error .malformedNumber
        | some v => .ok (v == 0))) := by
  obtain ⟨p, addr⟩ := s
  simp only at hp ha1 ha2
  subst hp
  have htemp : (DPM86XX.get_temperature ⟨some (), addr⟩ response).2 =
      readTail response := by
    simp only [DPM86XX.get_temperature, make_read_temperature_command]
    rw [make_read_command_ok ⟨ha1, ha2⟩ ⟨by norm_num, by norm_num⟩]
  have hvolt : (DPM86XX.get_actual_voltage_in_centivolts
      ⟨some (), addr⟩ response).2 = readTail response := by
    simp only [DPM86XX.get_actual_voltage_in_centivolts,
      make_read_actual_voltage_command]
    rw [make_read_command_ok ⟨ha1, ha2⟩ ⟨by norm_num, by norm_num⟩]
  have hcurr : (DPM86XX.get_actual_current_in_milliamperes
      ⟨some (), addr⟩ response).2 = readTail response := by
    simp only [DPM86XX.get_actual_current_in_milliamperes,
      make_read_actual_current_command]
    rw [make_read_command_ok ⟨ha1, ha2⟩ ⟨by norm_num, by norm_num⟩]
  have hstat : (DPM86XX.get_output_status ⟨some (), addr⟩ response).2 =
      (readTail response).map (fun v => v == 1) := by
    simp only [DPM86XX.get_output_status, make_read_output_status_command]
    rw [make_read_command_ok ⟨ha1, ha2⟩ ⟨by norm_num, by norm_num⟩]
  have hcc : (DPM86XX.get_cc_cv_status ⟨some (), addr⟩ response).2 =
      (readTail response).map (fun v => v == 0) := by
    simp only [DPM86XX.get_cc_cv_status, make_read_cc_cv_status_command]
    rw [make_read_command_ok ⟨ha1, ha2⟩ ⟨by norm_num, by norm_num⟩]
  refine ⟨⟨?_, ?_⟩, ⟨?_, ?_⟩, ⟨?_, ?_⟩, ⟨?_, ?_⟩, ⟨?_, ?_⟩⟩
  · intro h; rw [htemp, readTail_short h]
  · intro h; rw [htemp, readTail_long h]
  · intro h; rw [hvolt, readTail_short h]
  · intro h; rw [hvolt, readTail_long h]
  · intro h; rw [hcurr, readTail_short h]
  · intro h; rw [hcurr, readTail_long h]
  · intro h; rw [hstat, readTail_short h]; rfl
  · intro h
    rw [hstat, readTail_long h]
    cases pyIntParse (pySlice7toM3 response) <;> rfl
  · intro h; rw [hcc, readTail_short h]; rfl
  · intro h
    rw [hcc, readTail_long h]
    cases pyIntParse (pySlice7toM3 response) <;> rfl

/-- Witness for C6: a 5-byte response fails with the frame-too-short error,
a 13-byte response `:01r33=245,\r\n` parses to 245. -/
theorem read_operations_min_frame_length_witness :
    (DPM86XX.get_temperature ⟨some (), 1⟩ (":01ok".toList)).2 =
      .error (.frameTooShort (":01ok".toList)) ∧
    (DPM86XX.get_temperature ⟨some (), 1⟩ (":01r33=245,\r\n".toList)).2 =
      .ok 245 := by
  constructor
  · exact (read_operations_min_frame_length ⟨some (), 1⟩ (":01ok".toList) rfl
      (by decide) (by decide)).1.1 (by decide)
  · have h := (read_operations_min_frame_length ⟨some (), 1⟩
      (":01r33=245,\r\n".toList) rfl (by decide) (by decide)).1.2 (by decide)
    rw [h]
    rfl

/-- C7: every session I/O operation on a session without a bound channel
(constructed without a port and never bound via `set_port`) fails with the
no-channel precondition error, having written nothing to any channel (the
written-frame list is empty). -/
theorem no_channel_fails_before_write
    (s : DPM86XX) (response : List Char) (hp : s.port = none) :
    s.get_temperature response = ([], .error .notConnected) ∧
    (∀ v : Int,
      s.set_voltage_in_centivolts response v = ([], .error .notConnected)) ∧
    (∀ v : PyNumber, s.set_voltage response v = ([], .error .notConnected)) ∧
    s.get_actual_voltage_in_centivolts response = ([], .error .notConnected) ∧
    s.get_actual_voltage response = ([], .error .notConnected) ∧
    (∀ st : PyStatus,
      s.set_output_status response st = ([], .error .notConnected)) ∧
    s.get_output_status response = ([], .error .notConnected) ∧
    (∀ ma : Int,
      s.set_current_in_milliampere response ma = ([], .error .notConnected)) ∧
    (∀ c : PyNumber, s.set_current response c = ([], .error .notConnected)) ∧
    (∀ v c : PyNumber,
      s.set_voltage_and_current response v c = ([], .error .notConnected)) ∧
    s.get_actual_current_in_milliamperes response = ([], .error .notConnected) ∧
    s.get_actual_current response = ([], .error .notConnected) ∧
    s.get_cc_cv_status response = ([], .error .notConnected) ∧
    s.is_in_cv_mode response = ([], .error .notConnected) ∧
    s.is_in_cc_mode response = ([], .error .notConnected) := by
  obtain ⟨p, addr⟩ := s
  simp only at hp
  subst hp
  exact ⟨rfl, fun v => rfl, fun v => rfl, rfl, rfl, fun st => rfl, rfl,
    fun ma => rfl, fun c => rfl, fun v c => rfl, rfl, rfl, rfl, rfl, rfl⟩

/-- Witness for C7: a session constructed without a COM port fails a
temperature read with the no-channel error and writes nothing. -/
theorem no_channel_fails_before_write_witness :
    (DPM86XX.init none 1).get_temperature (":01r33=245,\r\n".toList) =
      ([], .error .notConnected) :=
  (no_channel_fails_before_write (DPM86XX.init none 1)
    (":01r33=245,\r\n".toList) rfl).1

/-- C8: the CC/CV query inverts the raw bit relative to its naming — with a
bound channel and a well-formed response carrying raw value `v`,
`get_cc_cv_status` (the "is CV" query) and `is_in_cv_mode` return `True`
iff `v = 0`, and `is_in_cc_mode` returns the negation. -/
theorem cc_cv_status_inverted
    (s : DPM86XX) (response : List Char) (v : Int)
    (hp : s.port = some ()) (ha1 : 1 ≤ s.address) (ha2 : s.address ≤ 99)
    (hlen : 11 ≤ response.length)
    (hv : pyIntParse (pySlice7toM3 response) = some v) :
    (s.get_cc_cv_status response).2 = .ok (v == 0) ∧
    (s.is_in_cv_mode response).2 = .ok (v == 0) ∧
    (s.is_in_cc_mode response).2 = .ok (!(v == 0)) ∧
    ((v == 0) = true ↔ v = 0) := by
  obtain ⟨p, addr⟩ := s
  simp only at hp ha1 ha2
  subst hp
  have hcc : (DPM86XX.get_cc_cv_status ⟨some (), addr⟩ response).2 =
      .ok (v == 0) := by
    simp only [DPM86XX.get_cc_cv_status, make_read_cc_cv_status_command]
    rw [make_read_command_ok ⟨ha1, ha2⟩ ⟨by norm_num, by norm_num⟩]
    show (readTail response).map (fun v => v == 0) = _
    rw [readTail_long hlen, hv]
    rfl
  refine ⟨hcc, ?_, ?_, beq_iff_eq⟩
  · simp only [DPM86XX.is_in_cv_mode]
    exact hcc
  · simp only [DPM86XX.is_in_cc_mode]
    rw [hcc]
    rfl

/-- Witness for C8: responses carrying raw values 1 and 0 — with raw value
1 the "is CV" query answers `False` and `is_in_cc_mode` answers `True`;
with raw value 0 the "is CV" query answers `True`. -/
theorem cc_cv_status_inverted_witness :
    (DPM86XX.get_cc_cv_status ⟨some (), 1⟩ (":01r32=1,\r\n".toList)).2 =
      .ok ((1 : Int) == 0) ∧
    (DPM86XX.is_in_cc_mode ⟨some (), 1⟩ (":01r32=1,\r\n".toList)).2 =
      .ok (!((1 : Int) == 0)) ∧
    (DPM86XX.get_cc_cv_status ⟨some (), 1⟩ (":01r32=0,\r\n".toList)).2 =
      .ok ((0 : Int) == 0) :=
  ⟨(cc_cv_status_inverted ⟨some (), 1⟩ (":01r32=1,\r\n".toList) 1 rfl
      (by decide) (by decide) (by decide) rfl).1,
   (cc_cv_status_inverted ⟨some (), 1⟩ (":01r32=1,\r\n".toList) 1 rfl
      (by decide) (by decide) (by decide) rfl).2.2.1,
   (cc_cv_status_inverted ⟨some (), 1⟩ (":01r32=0,\r\n".toList) 0 rfl
      (by decide) (by decide) (by decide) rfl).1⟩

/-- C9: `set_voltage` interprets every input as volts, never wire units —
it first coerces its argument to float and only then delegates, so
`set_voltage(12)` with the integer 12 writes the frame with operand 1200
(centivolts), whereas the same integer 12 passed to
`make_write_voltage_command` or `set_voltage_in_centivolts` produces the
frame with operand 12; the codec-level dual-unit convention does not apply
at the `set_voltage` entry point. -/
theorem set_voltage_always_volts :
    (∀ (s : DPM86XX) (response : List Char) (n : Int),
      s.set_voltage response (.pyInt n) =
        s.set_voltage response (.pyFloat (n : ℚ))) ∧
    (DPM86XX.set_voltage ⟨some (), 1⟩ ackFrame (.pyInt 12)).1 =
      [":01w10=1200,\r\n".toList] ∧
    make_write_voltage_command 1 (.pyInt 12) = .ok (":01w10=12,\r\n".toList) ∧
    (DPM86XX.set_voltage_in_centivolts ⟨some (), 1⟩ ackFrame 12).1 =
      [":01w10=12,\r\n".toList] := by
  refine ⟨?_, ?_, rfl, rfl⟩
  · intro s response n
    simp only [DPM86XX.set_voltage, PyNumber.toRat]
  · have h : toCentivolts (.pyFloat (((12 : Int) : ℚ))) = (1200 : Int) :=
      toCentivolts_pyFloat (by push_cast; norm_num)
    have hcmd : make_write_voltage_command 1 (.pyFloat (((12 : Int) : ℚ))) =
        .ok (":01w10=1200,\r\n".toList) := by
      rw [make_write_voltage_command_ok ⟨by norm_num, by norm_num⟩
        (by rw [h]; exact ⟨by norm_num, by norm_num⟩), h]
      rfl
    simp only [DPM86XX.set_voltage, PyNumber.toRat]
    rw [hcmd]

/-- C10: the numeric response parser is more lenient than "decimal digits
at a fixed offset" — the payload slice is parsed with Python `int()`, which
accepts an optional leading sign, surrounding ASCII whitespace, and PEP 515
single underscores between digits, so a response whose payload slice is
`b'-45'` makes `get_temperature` return −45 (and one whose slice is
`b'4_5'` makes it return 45) instead of failing; the malformed-number
error occurs exactly when `int()` cannot parse the slice. -/
theorem numeric_parser_lenient :
    (DPM86XX.get_temperature ⟨some (), 1⟩ (":01r33=-45,\r\n".toList)).2 =
      .ok (-45) ∧
    (DPM86XX.get_temperature ⟨some (), 1⟩ (":01r33=4_5,\r\n".toList)).2 =
      .ok 45 ∧
    pyIntParse ("-45".toList) = some (-45) ∧
    pyIntParse (" 45 ".toList) = some 45 ∧
    pyIntParse ("+45".toList) = some 45 ∧
    pyIntParse ("4_5".toList) = some 45 ∧
    pyIntParse ("1_000".toList) = some 1000 ∧
    pyIntParse ("_45".toList) = none ∧
    pyIntParse ("45_".toList) = none ∧
    pyIntParse ("4__5".toList) = none ∧
    (∀ (s : DPM86XX) (response : List Char),
      s.port = some () → 1 ≤ s.address → s.address ≤ 99 →
      11 ≤ response.length →
      ((s.get_temperature response).2 = .error .malformedNumber ↔
        pyIntParse (pySlice7toM3 response) = none)) := by
  refine ⟨rfl, rfl, rfl, rfl, rfl, rfl, rfl, rfl, rfl, rfl, ?_⟩
  intro s response hp ha1 ha2 hlen
  obtain ⟨p, addr⟩ := s
  simp only at hp ha1 ha2
  subst hp
  have htemp : (DPM86XX.get_temperature ⟨some (), addr⟩ response).2 =
      readTail response := by
    simp only [DPM86XX.get_temperature, make_read_temperature_command]
    rw [make_read_command_ok ⟨ha1, ha2⟩ ⟨by norm_num, by norm_num⟩]
  rw [htemp, readTail_long hlen]
  cases pyIntParse (pySlice7toM3 response) <;> simp

/-- Witness for C10's equivalence clause: a non-numeric payload `abc`
yields the malformed-number error. -/
theorem numeric_parser_lenient_witness :
    (DPM86XX.get_temperature ⟨some (), 1⟩ (":01r33=abc,\r\n".toList)).2 =
      .error .malformedNumber :=
  (numeric_parser_lenient.2.2.2.2.2.2.2.2.2.2 ⟨some (), 1⟩
    (":01r33=abc,\r\n".toList) rfl (by decide) (by decide) (by decide)).2 rfl
